import Mathlib

/-!
Shallow embedding of `src/functions/pdf-to-images/app.py` (the single Lambda
handler of the repository).  External collaborators (S3, EventBridge, pdfium)
are modelled as an oracle `World` describing how each external call would
behave during the invocation; the handler is a pure function from the trigger
event, the environment variables and that oracle to a result together with the
trace of externally visible effects (downloads, uploads, published events,
local scratch files still present).
-/

/-- The inbound trigger payload, as far as the handler inspects it:
`event.get("detail", {}).get("jobId")` and `"Records" in event`. -/
structure TriggerEvent where
  detailJobId : Option String
  hasRecords : Bool
deriving DecidableEq, Repr

/-- The two environment variables read by the handler:
`S3_BUCKET_PDFS` and `EVENT_BUS_NAME` (`none` when unset). -/
structure Env where
  s3BucketPdfs : Option String
  eventBusName : Option String
deriving DecidableEq, Repr

/-- Python truthiness test `if not x` for an optional string:
true when the variable is unset (`None`) or the empty string. -/
def isFalsy : Option String → Bool
  | none => true
  | some s => s == ""

/-- The failure kinds of the handler, one per `raise` site in the source
(the spec's error taxonomy names for them). -/
inductive HErr where
  | invalidTriggerPayload
  | missingConfiguration
  | sourceFetchFailed
  | corruptDocument
  | pageRenderFailed
  | outputUploadFailed
  | notificationFailed
deriving DecidableEq, Repr

/-- Behaviour of the external collaborators during one invocation.
`render i s` is the (abstract) image content produced by rendering 0-based
page `i` of the source document at scale `s`; `renderOk i` says whether
rendering page `i` (including the local `img.save`) succeeds. -/
structure World where
  downloadOk : Bool
  openOk : Bool
  pageCount : Nat
  renderOk : Nat → Bool
  render : Nat → Nat → Nat
  uploadOk : Nat → Bool
  publishOk : Bool

/-- One `events_client.put_events` entry as built by the handler. -/
structure PublishedEvent where
  source : String
  detailType : String
  jobId : String
  pageCount : Nat
  imagePre : String
  busName : String
deriving DecidableEq, Repr

/-- Externally visible effects of an invocation: S3 downloads attempted,
S3 objects successfully uploaded (bucket, key, content), local scratch files
currently existing in `/tmp`, and events published. -/
structure HState where
  downloads : List (String × String) := []
  uploads : List (String × String × Nat) := []
  localFiles : List String := []
  published : List PublishedEvent := []
deriving DecidableEq, Repr

/-- The value returned by the Python handler: either the bare `return`
of the legacy-Records branch (Python `None`) or the success dict
`{"jobId": ..., "pages": ..., "status": "success"}`. -/
inductive HandlerResult where
  | legacyNoop
  | success (jobId : String) (pages : Nat)
deriving DecidableEq, Repr

/-- The empty effect trace at the start of an invocation. -/
def initS : HState := {}

/-- Lines 19-30 of `app.py`: extract `detail.jobId`; if falsy, either
return early on an S3 `Records` payload (`.ok none`) or raise
`ValueError("jobId not found in event detail")`. -/
def decodeJobId (ev : TriggerEvent) : Except HErr (Option String) :=
  if isFalsy ev.detailJobId then
    if ev.hasRecords then .ok none
    else .error .invalidTriggerPayload
  else .ok ev.detailJobId

/-- Local scratch path `f"/tmp/{job_id}_page_{i+1}.png"` for 0-based page `i`. -/
def localImgPath (jobId : String) (i : Nat) : String :=
  "/tmp/" ++ jobId ++ "_page_" ++ toString (i + 1) ++ ".png"

/-- Local scratch path `f"/tmp/{job_id}_original.pdf"`. -/
def localPdfPath (jobId : String) : String :=
  "/tmp/" ++ jobId ++ "_original.pdf"

/-- Output key `f"{job_id}_pages/page_{i+1}.png"` for 0-based page `i`. -/
def outputKey (jobId : String) (i : Nat) : String :=
  jobId ++ "_pages" ++ "/page_" ++ toString (i + 1) ++ ".png"

/-- The `for i in range(page_count)` loop of the handler: render page `i` at
scale 2, save it to `/tmp`, upload it to `{jobId}_pages/page_{i+1}.png`,
append the key, then remove the local copy.  `m` is the number of pages still
to process, `i` the current 0-based index.  Returns the accumulated key list
(or the error that aborted the loop) with the final effect trace. -/
def pageLoop (w : World) (jobId bucket : String) :
    Nat → Nat → HState → List String → Except HErr (List String) × HState
  | 0, _, s, keys => (.ok keys, s)
  | m + 1, i, s, keys =>
    if w.renderOk i then
      let img := w.render i 2
      let localImg := localImgPath jobId i
      let s1 := { s with localFiles := s.localFiles ++ [localImg] }
      let key := outputKey jobId i
      if w.uploadOk i then
        let s2 := { s1 with uploads := s1.uploads ++ [(bucket, key, img)] }
        let s3 := { s2 with localFiles := s2.localFiles.erase localImg }
        pageLoop w jobId bucket m (i + 1) s3 (keys ++ [key])
      else (.error .outputUploadFailed, s1)
    else (.error .pageRenderFailed, s)

/-- The Lambda handler `handler(event, context)` of `app.py`, as a pure
function of the trigger payload, the environment and the external-world
oracle.  Mirrors the source line by line: decode, read env vars, check the
bucket, download `{jobId}/original.pdf`, open the PDF, run the page loop,
publish `ImagesGenerated` when a bus is configured, remove the local PDF,
return the success record; any raise aborts with the effects so far. -/
def handler (ev : TriggerEvent) (env : Env) (w : World) :
    Except HErr HandlerResult × HState :=
  match decodeJobId ev with
  | .error e => (.error e, initS)
  | .ok none => (.ok .legacyNoop, initS)
  | .ok (some jobId) =>
    if isFalsy env.s3BucketPdfs then (.error .missingConfiguration, initS)
    else
      let bucket := env.s3BucketPdfs.getD ""
      let inputKey := jobId ++ "/original.pdf"
      let localPdf := localPdfPath jobId
      let s0 : HState := { initS with downloads := [(bucket, inputKey)] }
      if !w.downloadOk then (.error .sourceFetchFailed, s0)
      else
        let s1 := { s0 with localFiles := [localPdf] }
        if !w.openOk then (.error .corruptDocument, s1)
        else
          let n := w.pageCount
          match pageLoop w jobId bucket n 0 s1 [] with
          | (.error e, s2) => (.error e, s2)
          | (.ok _keys, s2) =>
            if isFalsy env.eventBusName then
              let s3 := { s2 with localFiles := s2.localFiles.erase localPdf }
              (.ok (.success jobId n), s3)
            else if w.publishOk then
              let pe : PublishedEvent :=
                { source := "pdf-lecture-service"
                  detailType := "ImagesGenerated"
                  jobId := jobId
                  pageCount := n
                  imagePre := jobId ++ "_pages"
                  busName := env.eventBusName.getD "" }
              let s3 := { s2 with published := s2.published ++ [pe] }
              let s4 := { s3 with localFiles := s3.localFiles.erase localPdf }
              (.ok (.success jobId n), s4)
            else (.error .notificationFailed, s2)

/-! ### Helper lemmas shared by the claim theorems -/

/-- A non-empty optional string is not falsy. -/
theorem isFalsy_some_of_ne {s : String} (h : s ≠ "") : isFalsy (some s) = false := by
  simp [isFalsy, h]

/-- The per-page scratch path never coincides with the scratch path of the
downloaded PDF (their extensions differ). -/
theorem localImgPath_ne_localPdfPath (jobId : String) (i : Nat) :
    localImgPath jobId i ≠ localPdfPath jobId := by
  intro h
  have hd := congrArg (fun s => s.data.reverse.head?) h
  simp [localImgPath, localPdfPath, String.data_append, List.reverse_append] at hd

/-- The ordered list of output keys produced for pages `i, i+1, …, i+m-1`. -/
def pageKeys (jobId : String) (i m : Nat) : List String :=
  (List.range' i m).map (outputKey jobId)

/-- The ordered list of successful uploads (bucket, key, content) for pages
`i, i+1, …, i+m-1`, each rendered at the fixed scale 2. -/
def pageUploads (w : World) (jobId bucket : String) (i m : Nat) :
    List (String × String × Nat) :=
  (List.range' i m).map (fun j => (bucket, outputKey jobId j, w.render j 2))

/-- When every remaining page renders and uploads successfully, the page loop
returns all keys in page order, appends one upload per page, and leaves the
local scratch directory exactly as it found it (each image is deleted right
after its upload). -/
theorem pageLoop_success (w : World) (jobId bucket : String) (m : Nat) :
    ∀ (i : Nat) (s : HState) (keys : List String),
    s.localFiles = [localPdfPath jobId] →
    (∀ j, j < m → w.renderOk (i + j) = true) →
    (∀ j, j < m → w.uploadOk (i + j) = true) →
    pageLoop w jobId bucket m i s keys =
      (.ok (keys ++ pageKeys jobId i m),
       { s with uploads := s.uploads ++ pageUploads w jobId bucket i m }) := by
  induction m with
  | zero =>
    intro i s keys hpdf hr hu
    simp [pageLoop, pageKeys, pageUploads]
  | succ m ih =>
    intro i s keys hpdf hr hu
    have hri : w.renderOk i = true := by simpa using hr 0 m.succ_pos
    have hui : w.uploadOk i = true := by simpa using hu 0 m.succ_pos
    have hne : ¬(localPdfPath jobId == localImgPath jobId i) := by
      simpa using (localImgPath_ne_localPdfPath jobId i).symm
    have herase :
        (s.localFiles ++ [localImgPath jobId i]).erase (localImgPath jobId i) =
          [localPdfPath jobId] := by
      rw [hpdf]
      simp [List.erase_cons_tail hne]
    have ihs := ih (i + 1)
      { s with uploads := s.uploads ++ [(bucket, outputKey jobId i, w.render i 2)],
               localFiles := [localPdfPath jobId] }
      (keys ++ [outputKey jobId i]) rfl
      (fun j hj => by
        have := hr (j + 1) (by omega)
        simpa [Nat.add_assoc, Nat.add_comm, Nat.add_left_comm] using this)
      (fun j hj => by
        have := hu (j + 1) (by omega)
        simpa [Nat.add_assoc, Nat.add_comm, Nat.add_left_comm] using this)
    rw [pageLoop, hri, hui]
    simp only [if_true]
    rw [show ({ s with localFiles := s.localFiles ++ [localImgPath jobId i]} : HState).localFiles.erase (localImgPath jobId i) = [localPdfPath jobId] from herase] at *
    rw [ihs]
    simp [pageKeys, pageUploads, List.range'_succ, hpdf]

/-- When every page before offset `k` renders and uploads successfully, page
`i + k` renders but its upload fails, the loop aborts with
`outputUploadFailed`: the first `k` uploads are recorded, no further key is
produced, and the scratch image of the failing page is left behind (its
cleanup step never runs). -/
theorem pageLoop_uploadFail (w : World) (jobId bucket : String) (k : Nat) :
    ∀ (m i : Nat) (s : HState) (keys : List String),
    s.localFiles = [localPdfPath jobId] →
    k < m →
    (∀ j, j ≤ k → w.renderOk (i + j) = true) →
    (∀ j, j < k → w.uploadOk (i + j) = true) →
    w.uploadOk (i + k) = false →
    pageLoop w jobId bucket m i s keys =
      (.error .outputUploadFailed,
       { s with uploads := s.uploads ++ pageUploads w jobId bucket i k,
                localFiles := s.localFiles ++ [localImgPath jobId (i + k)] }) := by
  induction k with
  | zero =>
    intro m i s keys hpdf hk hr hu hfail
    match m, hk with
    | m + 1, _ =>
      have hri : w.renderOk i = true := by simpa using hr 0 (Nat.le_refl 0)
      have hui : w.uploadOk i = false := by simpa using hfail
      rw [pageLoop, hri, hui]
      simp [pageUploads]
  | succ k ih =>
    intro m i s keys hpdf hk hr hu hfail
    match m, hk with
    | m + 1, hk =>
      have hri : w.renderOk i = true := by simpa using hr 0 (Nat.zero_le _)
      have hui : w.uploadOk i = true := by simpa using hu 0 k.succ_pos
      have hne : ¬(localPdfPath jobId == localImgPath jobId i) := by
        simpa using (localImgPath_ne_localPdfPath jobId i).symm
      have herase :
          (s.localFiles ++ [localImgPath jobId i]).erase (localImgPath jobId i) =
            [localPdfPath jobId] := by
        rw [hpdf]
        simp [List.erase_cons_tail hne]
      have ihs := ih m (i + 1)
        { s with uploads := s.uploads ++ [(bucket, outputKey jobId i, w.render i 2)],
                 localFiles := [localPdfPath jobId] }
        (keys ++ [outputKey jobId i]) rfl (by omega)
        (fun j hj => by
          have := hr (j + 1) (by omega)
          simpa [Nat.add_assoc, Nat.add_comm, Nat.add_left_comm] using this)
        (fun j hj => by
          have := hu (j + 1) (by omega)
          simpa [Nat.add_assoc, Nat.add_comm, Nat.add_left_comm] using this)
        (by
          have : i + 1 + k = i + (k + 1) := by omega
          rw [this]; exact hfail)
      rw [pageLoop, hri, hui]
      simp only [if_true]
      rw [show ({ s with localFiles := s.localFiles ++ [localImgPath jobId i]} : HState).localFiles.erase (localImgPath jobId i) = [localPdfPath jobId] from herase] at *
      rw [ihs]
      have hidx : i + 1 + k = i + (k + 1) := by omega
      simp [pageUploads, List.range'_succ, hpdf, hidx]


/-- Full description of a successful invocation: with a non-empty job id, a
configured bucket, a successful download, a parsable PDF, and every page
rendering and uploading, the handler returns the success record; exactly one
upload per page is recorded, all scratch files are removed, and one
`ImagesGenerated` event is published exactly when a bus is configured. -/
theorem handler_success_run (jid bucket : String) (bus? : Option String)
    (rec : Bool) (w : World)
    (hjid : jid ≠ "") (hbucket : bucket ≠ "")
    (hdl : w.downloadOk = true) (hop : w.openOk = true)
    (hr : ∀ j, j < w.pageCount → w.renderOk j = true)
    (hu : ∀ j, j < w.pageCount → w.uploadOk j = true)
    (hp : isFalsy bus? = false → w.publishOk = true) :
    handler ⟨some jid, rec⟩ ⟨some bucket, bus?⟩ w =
      (.ok (.success jid w.pageCount),
       { downloads := [(bucket, jid ++ "/original.pdf")],
         uploads := pageUploads w jid bucket 0 w.pageCount,
         localFiles := [],
         published :=
           if isFalsy bus? then []
           else [{ source := "pdf-lecture-service", detailType := "ImagesGenerated",
                   jobId := jid, pageCount := w.pageCount,
                   imagePre := jid ++ "_pages", busName := bus?.getD "" }] }) := by
  have hloop := pageLoop_success w jid bucket w.pageCount 0
    { downloads := [(bucket, jid ++ "/original.pdf")], uploads := [],
      localFiles := [localPdfPath jid], published := [] }
    [] rfl (fun j hj => by simpa using hr j hj) (fun j hj => by simpa using hu j hj)
  simp only [handler, decodeJobId, isFalsy_some_of_ne hjid, isFalsy_some_of_ne hbucket,
    hdl, hop, Bool.not_true, Bool.false_eq_true, if_false, Option.getD_some, initS]
  rw [hloop]
  cases hbus : isFalsy bus? with
  | true => simp [List.erase_cons_head]
  | false =>
    have hpub := hp hbus
    simp [List.erase_cons_head, hpub]

/-- Full description of an invocation aborted by an upload failure on 0-based
page `k`: the error propagates, the first `k` uploads remain recorded, no
event is published, and the failing page's scratch image plus the downloaded
PDF remain on disk. -/
theorem handler_uploadFail_run (jid bucket : String) (bus? : Option String)
    (rec : Bool) (w : World) (k : Nat)
    (hjid : jid ≠ "") (hbucket : bucket ≠ "")
    (hdl : w.downloadOk = true) (hop : w.openOk = true)
    (hk : k < w.pageCount)
    (hr : ∀ j, j ≤ k → w.renderOk j = true)
    (hu : ∀ j, j < k → w.uploadOk j = true)
    (hfail : w.uploadOk k = false) :
    handler ⟨some jid, rec⟩ ⟨some bucket, bus?⟩ w =
      (.error .outputUploadFailed,
       { downloads := [(bucket, jid ++ "/original.pdf")],
         uploads := pageUploads w jid bucket 0 k,
         localFiles := [localPdfPath jid, localImgPath jid k],
         published := [] }) := by
  have hloop := pageLoop_uploadFail w jid bucket k w.pageCount 0
    { downloads := [(bucket, jid ++ "/original.pdf")], uploads := [],
      localFiles := [localPdfPath jid], published := [] }
    [] rfl hk
    (fun j hj => by simpa using hr j hj)
    (fun j hj => by simpa using hu j hj)
    (by simpa using hfail)
  simp only [handler, decodeJobId, isFalsy_some_of_ne hjid, isFalsy_some_of_ne hbucket,
    hdl, hop, Bool.not_true, Bool.false_eq_true, if_false, Option.getD_some, initS]
  rw [hloop]
  simp

/-! ### Concrete collaborators used by the witnesses -/

/-- A three-page source document for which every external call succeeds. -/
def wOkay : World where
  downloadOk := true
  openOk := true
  pageCount := 3
  renderOk := fun _ => true
  render := fun i s => 10 * i + s
  uploadOk := fun _ => true
  publishOk := true

/-- The same document, but the upload of 0-based page 1 fails. -/
def wStuck : World :=
  { wOkay with uploadOk := fun i => decide (i < 1), publishOk := false }

/-- An empty (zero-page) source document with all calls succeeding. -/
def wEmpty : World := { wOkay with pageCount := 0 }

/-- A second world describing the same source document as `wOkay`
(same page count, same rendered content) for the idempotence claim. -/
def wOkay2 : World := { wOkay with publishOk := false }

/-! ### Claims -/

/-- C1: for a job whose source PDF opens with `N` pages and every page renders
and uploads successfully, the handler uploads exactly `N` output objects,
named `{jobId}_pages/page_1.png` through `page_N.png` in increasing page
order, and the published completion event carries `pageCount = N`. -/
theorem C1_uploads_each_page_and_reports_count
    (jid bucket bus : String) (rec : Bool) (w : World)
    (hjid : jid ≠ "") (hbucket : bucket ≠ "") (hbus : bus ≠ "")
    (hdl : w.downloadOk = true) (hop : w.openOk = true)
    (hr : ∀ j, j < w.pageCount → w.renderOk j = true)
    (hu : ∀ j, j < w.pageCount → w.uploadOk j = true)
    (hp : w.publishOk = true) :
    (handler ⟨some jid, rec⟩ ⟨some bucket, some bus⟩ w).2.uploads =
        (List.range w.pageCount).map (fun i => (bucket, outputKey jid i, w.render i 2)) ∧
    (handler ⟨some jid, rec⟩ ⟨some bucket, some bus⟩ w).2.published =
        [{ source := "pdf-lecture-service", detailType := "ImagesGenerated",
           jobId := jid, pageCount := w.pageCount,
           imagePre := jid ++ "_pages", busName := bus }] := by
  rw [handler_success_run jid bucket (some bus) rec w hjid hbucket hdl hop hr hu
    (fun _ => hp)]
  constructor
  · simp [pageUploads, List.range_eq_range']
  · simp [isFalsy_some_of_ne hbus]

theorem C1_witness :
    (handler ⟨some "abc123", false⟩ ⟨some "docs", some "bus1"⟩ wOkay).2.uploads =
        (List.range wOkay.pageCount).map
          (fun i => ("docs", outputKey "abc123" i, wOkay.render i 2)) ∧
    (handler ⟨some "abc123", false⟩ ⟨some "docs", some "bus1"⟩ wOkay).2.published =
        [{ source := "pdf-lecture-service", detailType := "ImagesGenerated",
           jobId := "abc123", pageCount := wOkay.pageCount,
           imagePre := "abc123" ++ "_pages", busName := "bus1" }] :=
  C1_uploads_each_page_and_reports_count "abc123" "docs" "bus1" false wOkay
    (by decide) (by decide) (by decide) rfl rfl
    (fun j hj => rfl) (fun j hj => rfl) rfl

/-- C2: if the upload of 0-based page `k` fails (every earlier page uploaded,
every page up to `k` rendered), the invocation aborts with
`outputUploadFailed`, no completion event is published, and exactly the pages
before `k` remain uploaded — no rollback is performed. -/
theorem C2_upload_failure_aborts_without_event
    (jid bucket : String) (bus? : Option String) (rec : Bool) (w : World) (k : Nat)
    (hjid : jid ≠ "") (hbucket : bucket ≠ "")
    (hdl : w.downloadOk = true) (hop : w.openOk = true)
    (hk : k < w.pageCount)
    (hr : ∀ j, j ≤ k → w.renderOk j = true)
    (hu : ∀ j, j < k → w.uploadOk j = true)
    (hfail : w.uploadOk k = false) :
    (handler ⟨some jid, rec⟩ ⟨some bucket, bus?⟩ w).1 = .error .outputUploadFailed ∧
    (handler ⟨some jid, rec⟩ ⟨some bucket, bus?⟩ w).2.published = [] ∧
    (handler ⟨some jid, rec⟩ ⟨some bucket, bus?⟩ w).2.uploads =
        (List.range k).map (fun i => (bucket, outputKey jid i, w.render i 2)) := by
  rw [handler_uploadFail_run jid bucket bus? rec w k hjid hbucket hdl hop hk hr hu hfail]
  refine ⟨rfl, rfl, ?_⟩
  simp [pageUploads, List.range_eq_range']

theorem C2_witness :
    (handler ⟨some "abc123", false⟩ ⟨some "docs", some "bus1"⟩ wStuck).1 =
        .error .outputUploadFailed ∧
    (handler ⟨some "abc123", false⟩ ⟨some "docs", some "bus1"⟩ wStuck).2.published = [] ∧
    (handler ⟨some "abc123", false⟩ ⟨some "docs", some "bus1"⟩ wStuck).2.uploads =
        (List.range 1).map (fun i => ("docs", outputKey "abc123" i, wStuck.render i 2)) :=
  C2_upload_failure_aborts_without_event "abc123" "docs" (some "bus1") false wStuck 1
    (by decide) (by decide) rfl rfl (by decide)
    (fun j hj => rfl) (by decide) (by decide)

/-- C3: a payload whose `detail` carries a non-empty `jobId` decodes to
exactly that string; a payload lacking such a `jobId` and lacking a
`Records` marker makes the handler fail with `invalidTriggerPayload`,
returning no success value and performing no effects. -/
theorem C3_decoder_extracts_or_rejects (ev : TriggerEvent) (env : Env) (w : World) :
    (∀ s, ev.detailJobId = some s → s ≠ "" → decodeJobId ev = .ok (some s)) ∧
    (isFalsy ev.detailJobId = true → ev.hasRecords = false →
      handler ev env w = (.error .invalidTriggerPayload, initS)) := by
  constructor
  · intro s hs hne
    simp [decodeJobId, hs, isFalsy, hne]
  · intro hf hrec
    simp [handler, decodeJobId, hf, hrec]

theorem C3_witness :
    decodeJobId ⟨some "abc123", false⟩ = .ok (some "abc123") ∧
    handler ⟨none, false⟩ ⟨some "docs", some "bus1"⟩ wOkay =
      (.error .invalidTriggerPayload, initS) :=
  ⟨(C3_decoder_extracts_or_rejects ⟨some "abc123", false⟩ ⟨some "docs", some "bus1"⟩
      wOkay).1 "abc123" rfl (by decide),
   (C3_decoder_extracts_or_rejects ⟨none, false⟩ ⟨some "docs", some "bus1"⟩
      wOkay).2 rfl rfl⟩

/-- C4: for a zero-page document the handler uploads no image, still publishes
the completion event with `pageCount = 0` when a bus is configured, and
returns the success record with `pages = 0`. -/
theorem C4_empty_document (jid bucket bus : String) (rec : Bool) (w : World)
    (hjid : jid ≠ "") (hbucket : bucket ≠ "") (hbus : bus ≠ "")
    (hdl : w.downloadOk = true) (hop : w.openOk = true)
    (hn : w.pageCount = 0) (hp : w.publishOk = true) :
    handler ⟨some jid, rec⟩ ⟨some bucket, some bus⟩ w =
      (.ok (.success jid 0),
       { downloads := [(bucket, jid ++ "/original.pdf")],
         uploads := [], localFiles := [],
         published := [{ source := "pdf-lecture-service", detailType := "ImagesGenerated",
                         jobId := jid, pageCount := 0,
                         imagePre := jid ++ "_pages", busName := bus }] }) := by
  rw [handler_success_run jid bucket (some bus) rec w hjid hbucket hdl hop
    (fun j hj => absurd hj (by omega)) (fun j hj => absurd hj (by omega))
    (fun _ => hp)]
  simp [hn, pageUploads, isFalsy_some_of_ne hbus]

theorem C4_witness :
    handler ⟨some "abc123", false⟩ ⟨some "docs", some "bus1"⟩ wEmpty =
      (.ok (.success "abc123" 0),
       { downloads := [("docs", "abc123" ++ "/original.pdf")],
         uploads := [], localFiles := [],
         published := [{ source := "pdf-lecture-service", detailType := "ImagesGenerated",
                         jobId := "abc123", pageCount := 0,
                         imagePre := "abc123" ++ "_pages", busName := "bus1" }] }) :=
  C4_empty_document "abc123" "docs" "bus1" false wEmpty
    (by decide) (by decide) (by decide) rfl rfl rfl rfl

/-- C5: scratch images are deleted exactly for the pages whose upload
succeeded: on a fully successful run no scratch file remains, while on a run
whose upload fails at 0-based page `k` the cleanup of that page never runs —
only its image (and the downloaded PDF) remain, and the upload failure
propagates unmasked. -/
theorem C5_scratch_deleted_iff_uploaded
    (jid bucket : String) (bus? : Option String) (rec : Bool)
    (w wf : World) (k : Nat)
    (hjid : jid ≠ "") (hbucket : bucket ≠ "")
    (hdl : w.downloadOk = true) (hop : w.openOk = true)
    (hr : ∀ j, j < w.pageCount → w.renderOk j = true)
    (hu : ∀ j, j < w.pageCount → w.uploadOk j = true)
    (hp : isFalsy bus? = false → w.publishOk = true)
    (hfdl : wf.downloadOk = true) (hfop : wf.openOk = true)
    (hfk : k < wf.pageCount)
    (hfr : ∀ j, j ≤ k → wf.renderOk j = true)
    (hfu : ∀ j, j < k → wf.uploadOk j = true)
    (hff : wf.uploadOk k = false) :
    (handler ⟨some jid, rec⟩ ⟨some bucket, bus?⟩ w).2.localFiles = [] ∧
    (handler ⟨some jid, rec⟩ ⟨some bucket, bus?⟩ wf).2.localFiles =
        [localPdfPath jid, localImgPath jid k] ∧
    (handler ⟨some jid, rec⟩ ⟨some bucket, bus?⟩ wf).1 = .error .outputUploadFailed := by
  rw [handler_success_run jid bucket bus? rec w hjid hbucket hdl hop hr hu hp,
    handler_uploadFail_run jid bucket bus? rec wf k hjid hbucket hfdl hfop hfk hfr hfu hff]
  exact ⟨rfl, rfl, rfl⟩

theorem C5_witness :
    (handler ⟨some "abc123", false⟩ ⟨some "docs", some "bus1"⟩ wOkay).2.localFiles = [] ∧
    (handler ⟨some "abc123", false⟩ ⟨some "docs", some "bus1"⟩ wStuck).2.localFiles =
        [localPdfPath "abc123", localImgPath "abc123" 1] ∧
    (handler ⟨some "abc123", false⟩ ⟨some "docs", some "bus1"⟩ wStuck).1 =
        .error .outputUploadFailed :=
  C5_scratch_deleted_iff_uploaded "abc123" "docs" (some "bus1") false wOkay wStuck 1
    (by decide) (by decide) rfl rfl (fun j hj => rfl) (fun j hj => rfl) (fun _ => rfl)
    rfl rfl (by decide) (fun j hj => rfl) (by decide) (by decide)

/-- C6: when the bucket name is missing from configuration (with a valid
job id in the payload), the handler fails with `missingConfiguration` and the
effect trace is empty: nothing was downloaded, uploaded or published. -/
theorem C6_missing_bucket_fails_before_io
    (jid : String) (rec : Bool) (bkt? bus? : Option String) (w : World)
    (hjid : jid ≠ "") (hb : isFalsy bkt? = true) :
    handler ⟨some jid, rec⟩ ⟨bkt?, bus?⟩ w =
      (.error .missingConfiguration,
       { downloads := [], uploads := [], localFiles := [], published := [] }) := by
  simp [handler, decodeJobId, isFalsy_some_of_ne hjid, hb, initS]

theorem C6_witness :
    handler ⟨some "abc123", false⟩ ⟨none, some "bus1"⟩ wOkay =
      (.error .missingConfiguration,
       { downloads := [], uploads := [], localFiles := [], published := [] }) :=
  C6_missing_bucket_fails_before_io "abc123" false none (some "bus1") wOkay
    (by decide) rfl

/-- C7: with no event bus configured, publication is skipped non-fatally: a
fully rendered and uploaded job still returns the success record
`{jobId, pages = N, status = success}` and no event is published. -/
theorem C7_no_bus_still_succeeds (jid bucket : String) (rec : Bool) (w : World)
    (hjid : jid ≠ "") (hbucket : bucket ≠ "")
    (hdl : w.downloadOk = true) (hop : w.openOk = true)
    (hr : ∀ j, j < w.pageCount → w.renderOk j = true)
    (hu : ∀ j, j < w.pageCount → w.uploadOk j = true) :
    handler ⟨some jid, rec⟩ ⟨some bucket, none⟩ w =
      (.ok (.success jid w.pageCount),
       { downloads := [(bucket, jid ++ "/original.pdf")],
         uploads := pageUploads w jid bucket 0 w.pageCount,
         localFiles := [], published := [] }) := by
  rw [handler_success_run jid bucket none rec w hjid hbucket hdl hop hr hu
    (fun h => by simp [isFalsy] at h)]
  simp [isFalsy]

theorem C7_witness :
    handler ⟨some "abc123", false⟩ ⟨some "docs", none⟩ wOkay =
      (.ok (.success "abc123" wOkay.pageCount),
       { downloads := [("docs", "abc123" ++ "/original.pdf")],
         uploads := pageUploads wOkay "abc123" "docs" 0 wOkay.pageCount,
         localFiles := [], published := [] }) :=
  C7_no_bus_still_succeeds "abc123" "docs" false wOkay
    (by decide) (by decide) rfl rfl (fun j hj => rfl) (fun j hj => rfl)

/-- C8: a payload with no usable `detail.jobId` but with a `Records` marker
makes the handler return immediately (the bare Python `return`, no raise) with
an empty effect trace: nothing downloaded, rendered, uploaded or published. -/
theorem C8_records_payload_is_noop (ev : TriggerEvent) (env : Env) (w : World)
    (hj : isFalsy ev.detailJobId = true) (hrec : ev.hasRecords = true) :
    handler ev env w =
      (.ok .legacyNoop,
       { downloads := [], uploads := [], localFiles := [], published := [] }) := by
  simp [handler, decodeJobId, hj, hrec, initS]

theorem C8_witness :
    handler ⟨none, true⟩ ⟨some "docs", some "bus1"⟩ wOkay =
      (.ok .legacyNoop,
       { downloads := [], uploads := [], localFiles := [], published := [] }) :=
  C8_records_payload_is_noop ⟨none, true⟩ ⟨some "docs", some "bus1"⟩ wOkay rfl rfl

/-- C9: two successful invocations with the same `jobId` and the same source
document (same page count, same deterministic rendering) write exactly the
same ordered list of output keys with the same image content, each page
rendered at the fixed scale factor 2. -/
theorem C9_same_document_same_uploads
    (jid bucket : String) (bus1? bus2? : Option String) (rec : Bool) (w1 w2 : World)
    (hjid : jid ≠ "") (hbucket : bucket ≠ "")
    (hn : w1.pageCount = w2.pageCount) (hrender : w1.render = w2.render)
    (hdl1 : w1.downloadOk = true) (hop1 : w1.openOk = true)
    (hr1 : ∀ j, j < w1.pageCount → w1.renderOk j = true)
    (hu1 : ∀ j, j < w1.pageCount → w1.uploadOk j = true)
    (hp1 : isFalsy bus1? = false → w1.publishOk = true)
    (hdl2 : w2.downloadOk = true) (hop2 : w2.openOk = true)
    (hr2 : ∀ j, j < w2.pageCount → w2.renderOk j = true)
    (hu2 : ∀ j, j < w2.pageCount → w2.uploadOk j = true)
    (hp2 : isFalsy bus2? = false → w2.publishOk = true) :
    (handler ⟨some jid, rec⟩ ⟨some bucket, bus1?⟩ w1).2.uploads =
        (handler ⟨some jid, rec⟩ ⟨some bucket, bus2?⟩ w2).2.uploads ∧
    (handler ⟨some jid, rec⟩ ⟨some bucket, bus1?⟩ w1).2.uploads =
        (List.range w1.pageCount).map (fun i => (bucket, outputKey jid i, w1.render i 2)) := by
  rw [handler_success_run jid bucket bus1? rec w1 hjid hbucket hdl1 hop1 hr1 hu1 hp1,
    handler_success_run jid bucket bus2? rec w2 hjid hbucket hdl2 hop2 hr2 hu2 hp2]
  constructor
  · simp [pageUploads, hn, hrender]
  · simp [pageUploads, List.range_eq_range']

theorem C9_witness :
    (handler ⟨some "abc123", false⟩ ⟨some "docs", some "bus1"⟩ wOkay).2.uploads =
        (handler ⟨some "abc123", false⟩ ⟨some "docs", none⟩ wOkay2).2.uploads ∧
    (handler ⟨some "abc123", false⟩ ⟨some "docs", some "bus1"⟩ wOkay).2.uploads =
        (List.range wOkay.pageCount).map
          (fun i => ("docs", outputKey "abc123" i, wOkay.render i 2)) :=
  C9_same_document_same_uploads "abc123" "docs" (some "bus1") none false wOkay wOkay2
    (by decide) (by decide) rfl rfl rfl rfl
    (fun j hj => rfl) (fun j hj => rfl) (fun _ => rfl)
    rfl rfl (fun j hj => rfl) (fun j hj => rfl) (fun h => by simp [isFalsy] at h)

/-- C10: a present non-empty `detail.jobId` takes precedence over the legacy
shape: the decoder extracts it and the handler behaves identically whether or
not the payload also carries a `Records` marker — the fallback branch is
never taken. -/
theorem C10_jobId_wins_over_records (s : String) (env : Env) (w : World)
    (hs : s ≠ "") :
    decodeJobId ⟨some s, true⟩ = .ok (some s) ∧
    handler ⟨some s, true⟩ env w = handler ⟨some s, false⟩ env w := by
  constructor
  · simp [decodeJobId, isFalsy, hs]
  · simp [handler, decodeJobId, isFalsy, hs]

theorem C10_witness :
    decodeJobId ⟨some "abc123", true⟩ = .ok (some "abc123") ∧
    handler ⟨some "abc123", true⟩ ⟨some "docs", some "bus1"⟩ wOkay =
        handler ⟨some "abc123", false⟩ ⟨some "docs", some "bus1"⟩ wOkay :=
  C10_jobId_wins_over_records "abc123" ⟨some "docs", some "bus1"⟩ wOkay (by decide)
